import Mathlib

/-!
Verification of the pour orchestration subsystem of MixMasterAI
(`src/app.py`, endpoint `pour_cocktail` and its collaborators:
`initialize_pump_pin`, `pour_ingredient`, the `MachineState`
compare-and-set lock, the recipe scaler, and the scoring step).

The embedding is shallow: SQLAlchemy rows become Lean structures, the
database session becomes an explicit `DB` value threaded through the
endpoint, GPIO pins become an explicit channel state, Python floats
become exact rationals, and exception points (hardware faults, an
unhandled exception in the request body, persistence failures of the
lock-release commit) become explicit oracle parameters.
-/

/-- Electrical level of a GPIO pin (`GPIO.HIGH` / `GPIO.LOW`). -/
inductive PinLevel where
  | high
  | low
deriving DecidableEq

/-- The active level of the relay. `src/app.py` documents and uses
active-high logic: `GPIO.HIGH = Relay ON (pump running)`. -/
def RELAY_ON : PinLevel := PinLevel.high

/-- The idle/OFF level of the relay: `GPIO.LOW = Relay OFF (pump stopped)`. -/
def RELAY_OFF : PinLevel := PinLevel.low

/-- State of one GPIO channel: its current electrical level and whether it
has been configured as an output. -/
structure Channel where
  level : PinLevel
  configured : Bool
deriving DecidableEq

/-- Python truthiness of `pin_number` (`if ... pin_number:`): `None` and `0`
are falsy. -/
def pinTruthy : Option Nat → Bool
  | none => false
  | some n => n != 0

/-- Embeds `initialize_pump_pin` (src/app.py lines 21-32): when GPIO is
available and the pin number is truthy, configure the pin as an output and
set it `LOW` (pump OFF); otherwise do nothing. -/
def init_pump_pin (gpioAvailable : Bool) (pin : Option Nat) (c : Channel) : Channel :=
  if gpioAvailable && pinTruthy pin then { level := PinLevel.low, configured := true }
  else c

/-- Fault oracle for one `pour_ingredient` call: where (if anywhere) the
first hardware-interaction exception is raised inside the `try` block. -/
inductive RunFault where
  | ok
  | atSetup
  | atOn
  | atSleep
  | atOff
deriving DecidableEq

/-- Result of one `pour_ingredient` call: the Python return value, the final
channel state, and the ordered list of electrical writes performed. -/
structure RunResult where
  returned : Bool
  chan : Channel
  writes : List PinLevel
deriving DecidableEq

/-- Embeds `pour_ingredient` (src/app.py lines 35-87).
Simulation mode sleeps and returns `True` with no electrical I/O.
Hardware mode with a falsy pin returns `False` ("SKIPPED") with no I/O.
Otherwise: `GPIO.setup(pin, OUT, initial=LOW)`, write `HIGH`, sleep for the
duration, write `LOW`, return `True`; on an exception at any of those steps
the `except` handler writes `LOW` (pump OFF) and returns `False`.
A raising call is modelled as performing no write of its own. -/
def pour_ingredient (gpioAvailable : Bool) (pin : Option Nat) (c : Channel)
    (fault : RunFault) : RunResult :=
  if !gpioAvailable then
    { returned := true, chan := c, writes := [] }
  else if !pinTruthy pin then
    { returned := false, chan := c, writes := [] }
  else
    match fault with
    | RunFault.ok =>
        { returned := true
          chan := { level := PinLevel.low, configured := true }
          writes := [PinLevel.low, PinLevel.high, PinLevel.low] }
    | RunFault.atSetup =>
        { returned := false
          chan := { level := PinLevel.low, configured := c.configured }
          writes := [PinLevel.low] }
    | RunFault.atOn =>
        { returned := false
          chan := { level := PinLevel.low, configured := true }
          writes := [PinLevel.low, PinLevel.low] }
    | RunFault.atSleep =>
        { returned := false
          chan := { level := PinLevel.low, configured := true }
          writes := [PinLevel.low, PinLevel.high, PinLevel.low] }
    | RunFault.atOff =>
        { returned := false
          chan := { level := PinLevel.low, configured := true }
          writes := [PinLevel.low, PinLevel.high, PinLevel.low] }

/-- Claim C8: `initialize_pump_pin` leaves the channel in the electrically
idle OFF state, and `pour_ingredient` leaves the channel OFF on every exit
path of hardware mode: a normal completion returns `true` with the channel
OFF, and on any hardware-interaction error the channel is forced OFF before
returning `false`. All three paths use the same fixed active-high polarity:
the normal write sequence is OFF, ON, OFF with ON = HIGH and OFF = LOW, and
the last write on every path is OFF. -/
theorem C8_pump_driver_failsafe_off (pin : Option Nat) (c : Channel) (fault : RunFault)
    (hpin : pinTruthy pin = true) :
    (init_pump_pin true pin c).level = RELAY_OFF
    ∧ (pour_ingredient true pin c fault).chan.level = RELAY_OFF
    ∧ ((pour_ingredient true pin c fault).returned = true ↔ fault = RunFault.ok)
    ∧ (fault = RunFault.ok →
        (pour_ingredient true pin c fault).writes = [RELAY_OFF, RELAY_ON, RELAY_OFF])
    ∧ (pour_ingredient true pin c fault).writes.getLast? = some RELAY_OFF
    ∧ RELAY_ON = PinLevel.high ∧ RELAY_OFF = PinLevel.low := by
  cases fault <;>
    simp [init_pump_pin, pour_ingredient, hpin, RELAY_ON, RELAY_OFF]

/-- Witness for C8 at a concrete pin, channel and fault point: a hardware
error during the sleep (pump running) still ends with the channel OFF and
`pour_ingredient` returning `false`. -/
theorem C8_pump_driver_failsafe_off_witness :
    (init_pump_pin true (some 17) { level := PinLevel.high, configured := false }).level
        = RELAY_OFF
    ∧ (pour_ingredient true (some 17) { level := PinLevel.high, configured := false }
        RunFault.atSleep).chan.level = RELAY_OFF
    ∧ ((pour_ingredient true (some 17) { level := PinLevel.high, configured := false }
        RunFault.atSleep).returned = true ↔ RunFault.atSleep = RunFault.ok)
    ∧ (RunFault.atSleep = RunFault.ok →
        (pour_ingredient true (some 17) { level := PinLevel.high, configured := false }
          RunFault.atSleep).writes = [RELAY_OFF, RELAY_ON, RELAY_OFF])
    ∧ (pour_ingredient true (some 17) { level := PinLevel.high, configured := false }
        RunFault.atSleep).writes.getLast? = some RELAY_OFF
    ∧ RELAY_ON = PinLevel.high ∧ RELAY_OFF = PinLevel.low :=
  C8_pump_driver_failsafe_off (some 17) { level := PinLevel.high, configured := false }
    RunFault.atSleep (by decide)

/-- Row of the `Pump` table (src/backend/models.py): pin assignment,
activity/alcohol/virtual flags and the calibration constant. -/
structure Pump where
  id : Nat
  pin_number : Option Nat
  is_active : Bool
  is_alcohol : Bool
  is_virtual : Bool
  seconds_per_50ml : ℚ
deriving DecidableEq

/-- Row of the `Recipe` table: the decoded `ingredients_json` mapping
pump id to relative volume, and the category string. -/
structure Recipe where
  id : Nat
  ingredients : List (Nat × ℚ)
  category : String
deriving DecidableEq

/-- The singleton `MachineState` row: the `is_pouring` lock flag and the
configured target volumes. -/
structure MachineState where
  is_pouring : Bool
  classic_target_vol : ℚ
  highball_target_vol : ℚ
  shot_target_vol : ℚ
  taste_amount_ml : ℚ
deriving DecidableEq

/-- The authenticated user (`current_user`): id and cumulative points. -/
structure User where
  id : Nat
  points : ℤ
deriving DecidableEq

/-- Row of the `PourHistory` table as written by `pour_cocktail`. -/
structure PourHistory where
  user_id : Nat
  recipe_id : Nat
  is_strong : Bool
  points_awarded : ℤ
deriving DecidableEq

/-- The persistent store visible to `pour_cocktail`: the singleton machine
state, the pump and recipe tables, the current user's row and the pour
history table. -/
structure DB where
  machine : MachineState
  pumps : List Pump
  recipes : List Recipe
  user : User
  history : List PourHistory
deriving DecidableEq

/-- `Pump.query.get(pump_id)`. -/
def findPump (db : DB) (pid : Nat) : Option Pump :=
  db.pumps.find? (fun p => p.id == pid)

/-- `Recipe.query.get(recipe_id)` (used through `get_or_404`). -/
def findRecipe (db : DB) (rid : Nat) : Option Recipe :=
  db.recipes.find? (fun r => r.id == rid)

/-- Embeds the atomic compare-and-set of src/app.py lines 427-432:
`UPDATE machine_state SET is_pouring = 1 WHERE id = 1 AND is_pouring = 0`.
Returns whether a row was affected (`result.rowcount == 1`) and the machine
state after the update. -/
def try_acquire (s : MachineState) : Bool × MachineState :=
  if s.is_pouring then (false, s)
  else (true, { s with is_pouring := true })

/-- Embeds the target-volume selection of src/app.py lines 458-468: taste
mode overrides with `taste_amount_ml`; otherwise the category picks the
highball, shot or (default) classic target volume. -/
def select_target_volume (s : MachineState) (is_taste : Bool) (category : String) : ℚ :=
  if is_taste then s.taste_amount_ml
  else if category = "highball" then s.highball_target_vol
  else if category = "shot" then s.shot_target_vol
  else s.classic_target_vol

/-- `original_total = sum(float(ml) for ml in ingredients.values())`
(src/app.py line 474). -/
def original_total (ings : List (Nat × ℚ)) : ℚ :=
  (ings.map Prod.snd).sum

/-- Embeds the scaling loop of src/app.py lines 480-483:
`calculated[pump_id] = (orig_ml / original_total) * target_volume`. -/
def scale_ingredients (ings : List (Nat × ℚ)) (total target : ℚ) : List (Nat × ℚ) :=
  ings.map (fun p => (p.1, p.2 / total * target))

/-- The `pump and pump.is_alcohol` test of src/app.py (lines 490 and 532):
true iff the pump row exists and is flagged alcoholic. -/
def is_alcohol_pump (db : DB) (pid : Nat) : Bool :=
  match findPump db pid with
  | some p => p.is_alcohol
  | none => false

/-- One iteration of the strong-mode loop (src/app.py lines 488-491):
multiply the entry by 1.5 if its pump exists and is alcoholic, else leave
it unchanged. -/
def strongEntry (db : DB) (p : Nat × ℚ) : Nat × ℚ :=
  if is_alcohol_pump db p.1 then (p.1, p.2 * (3 / 2)) else p

/-- Embeds the strong-mode loop of src/app.py lines 487-491: when
`is_strong`, multiply by 1.5 every entry whose pump exists and is alcoholic;
leave every other entry unchanged. -/
def apply_strong (db : DB) (is_strong : Bool) (cal : List (Nat × ℚ)) : List (Nat × ℚ) :=
  if is_strong then cal.map (strongEntry db)
  else cal

/-- The scaled-and-strengthened ingredient map `calculated_ingredients` that
src/app.py lines 480-491 compute from a recipe and the request flags. -/
def calc_ingredients (db : DB) (r : Recipe) (is_strong is_taste : Bool) : List (Nat × ℚ) :=
  apply_strong db is_strong
    (scale_ingredients r.ingredients (original_total r.ingredients)
      (select_target_volume db.machine is_taste r.category))

/-- One dispense thread started by the loop of src/app.py lines 498-519:
the pump it serves, the pin passed to `pour_ingredient`, and the run
duration `(ml_amount / 50.0) * pump.seconds_per_50ml`. -/
structure DispenseTask where
  pump_id : Nat
  pin_number : Option Nat
  duration : ℚ
deriving DecidableEq

/-- One iteration of the dispense loop (src/app.py lines 498-519): skip the
entry when its pump row is missing (`if not pump: continue`), otherwise
start one thread with duration `(ml_amount / 50.0) * pump.seconds_per_50ml`.
Zero volumes and inactive pumps are not skipped. -/
def task_for (db : DB) (p : Nat × ℚ) : Option DispenseTask :=
  match findPump db p.1 with
  | none => none
  | some pu =>
      some { pump_id := p.1, pin_number := pu.pin_number
             duration := p.2 / 50 * pu.seconds_per_50ml }

/-- Embeds the dispense loop of src/app.py lines 498-519: one task per
entry of `calculated_ingredients` whose pump row exists. -/
def dispense_tasks (db : DB) (cal : List (Nat × ℚ)) : List DispenseTask :=
  cal.filterMap (task_for db)

/-- `max(durations) if durations else 0` (src/app.py line 526). -/
def max_duration : List ℚ → ℚ
  | [] => 0
  | d :: ds => ds.foldl max d

/-- Embeds the alcohol-total loop of src/app.py lines 529-533: sum the
scaled volumes of the entries whose pump exists and is alcoholic. -/
def total_alcohol_ml (db : DB) (cal : List (Nat × ℚ)) : ℚ :=
  ((cal.filter (fun p => is_alcohol_pump db p.1)).map Prod.snd).sum

/-- Python 3 `round` on the exact value: round half to even. -/
def pyRound (q : ℚ) : ℤ :=
  let f : ℤ := ⌊q⌋
  let r : ℚ := q - (f : ℚ)
  if r < 1 / 2 then f
  else if 1 / 2 < r then f + 1
  else if f % 2 = 0 then f else f + 1

/-- Outcome of one `pour_cocktail` request, as sent to the client. -/
inductive PourOutcome where
  | busy
  | notFoundCaught
  | invalidRecipe
  | serverError
  | success (points_added : ℤ) (new_points : ℤ) (total_duration : ℚ) (is_highball : Bool)
deriving DecidableEq

/-- The HTTP status code each outcome is sent with. The missing-recipe
case is `notFoundCaught`: `get_or_404` raises and the broad
`except Exception` handler (src/app.py lines 570-583) converts it to a
500 response. -/
def httpStatus : PourOutcome → Nat
  | PourOutcome.busy => 400
  | PourOutcome.invalidRecipe => 400
  | PourOutcome.notFoundCaught => 500
  | PourOutcome.serverError => 500
  | PourOutcome.success _ _ _ _ => 200

/-- Result of the `try` body of `pour_cocktail` (src/app.py lines 444-583):
the outcome, the store as left by the body (writes are committed together
at line 548, and the exception handler rolls back), and the dispense tasks
that were started. -/
structure BodyResult where
  outcome : PourOutcome
  db : DB
  tasks : List DispenseTask
deriving DecidableEq

/-- Embeds the `try` body of `pour_cocktail` (src/app.py lines 444-583),
entered with the lock held. `bodyFault` is the oracle for an unhandled
exception between the dispense fan-out and the scoring commit; both it and
the `get_or_404` of a missing recipe land in the `except Exception` handler,
which rolls back and answers 500. -/
def pour_body (db : DB) (recipe_id : Nat) (is_strong is_taste : Bool)
    (bodyFault : Bool) : BodyResult :=
  match findRecipe db recipe_id with
  | none => { outcome := PourOutcome.notFoundCaught, db := db, tasks := [] }
  | some recipe =>
    if original_total recipe.ingredients = 0 then
      { outcome := PourOutcome.invalidRecipe, db := db, tasks := [] }
    else
      let cal := calc_ingredients db recipe is_strong is_taste
      let tasks := dispense_tasks db cal
      if bodyFault then { outcome := PourOutcome.serverError, db := db, tasks := tasks }
      else
        let pts := pyRound (total_alcohol_ml db cal)
        { outcome := PourOutcome.success pts (db.user.points + pts)
            (max_duration (tasks.map DispenseTask.duration))
            ((recipe.category == "highball") && !is_taste)
          db := { db with
                  user := { db.user with points := db.user.points + pts }
                  history := db.history ++
                    [{ user_id := db.user.id, recipe_id := recipe.id
                       is_strong := is_strong, points_awarded := pts }] }
          tasks := tasks }

/-- Embeds the `finally` block of src/app.py lines 585-606: one
unconditional `is_pouring = false` write; if its commit fails, roll back
and retry the same write exactly once; if that also fails, log and swallow.
`fail1` and `fail2` are the persistence-failure oracles of the two
attempts. Returns the machine state after the block and the number of
release writes attempted. -/
def release_lock (s : MachineState) (fail1 fail2 : Bool) : MachineState × Nat :=
  if fail1 = false then ({ s with is_pouring := false }, 1)
  else if fail2 = false then ({ s with is_pouring := false }, 2)
  else (s, 2)

/-- Full result of one request to `POST /pour/<recipe_id>`. -/
structure PourResult where
  outcome : PourOutcome
  status : Nat
  db : DB
  tasks : List DispenseTask
  releaseAttempts : Nat
deriving DecidableEq

/-- Embeds the endpoint `pour_cocktail` (src/app.py lines 423-606): the
compare-and-set acquire; on failure return 400 busy with nothing changed
(the busy return is before the `try`, so the `finally` release does not
run); on success run the body and then the guaranteed release. -/
def pour_cocktail (db : DB) (recipe_id : Nat) (is_strong is_taste : Bool)
    (bodyFault fail1 fail2 : Bool) : PourResult :=
  let acq := try_acquire db.machine
  if acq.1 = false then
    { outcome := PourOutcome.busy, status := 400, db := db, tasks := []
      releaseAttempts := 0 }
  else
    let body := pour_body { db with machine := acq.2 } recipe_id is_strong is_taste bodyFault
    let rel := release_lock body.db.machine fail1 fail2
    { outcome := body.outcome, status := httpStatus body.outcome
      db := { body.db with machine := rel.1 }, tasks := body.tasks
      releaseAttempts := rel.2 }

/-- Updating only the machine state does not change recipe lookup. -/
theorem findRecipe_set_machine (db : DB) (m : MachineState) (rid : Nat) :
    findRecipe { db with machine := m } rid = findRecipe db rid := rfl

/-- Updating only the machine state does not change pump lookup. -/
theorem findPump_set_machine (db : DB) (m : MachineState) (pid : Nat) :
    findPump { db with machine := m } pid = findPump db pid := rfl

/-- Toggling only the lock flag does not change the scaled ingredient map:
`select_target_volume` reads only the configured volumes. -/
theorem calc_ingredients_set_pouring (db : DB) (b : Bool) (r : Recipe) (s t : Bool) :
    calc_ingredients { db with machine := { db.machine with is_pouring := b } } r s t
      = calc_ingredients db r s t := rfl

/-- Updating only the machine state does not change the dispense fan-out. -/
theorem dispense_tasks_set_machine (db : DB) (m : MachineState) (cal : List (Nat × ℚ)) :
    dispense_tasks { db with machine := m } cal = dispense_tasks db cal := rfl

/-- Updating only the machine state does not change the alcohol total. -/
theorem total_alcohol_ml_set_machine (db : DB) (m : MachineState) (cal : List (Nat × ℚ)) :
    total_alcohol_ml { db with machine := m } cal = total_alcohol_ml db cal := rfl

attribute [simp] findRecipe_set_machine findPump_set_machine calc_ingredients_set_pouring
attribute [simp] dispense_tasks_set_machine total_alcohol_ml_set_machine

/-- The body of `pour_cocktail` never produces the busy outcome: busy is
decided before the `try` block is entered. -/
theorem pour_body_outcome_ne_busy (db : DB) (rid : Nat) (s t bf : Bool) :
    (pour_body db rid s t bf).outcome ≠ PourOutcome.busy := by
  rcases hr : findRecipe db rid with _ | r
  · simp [pour_body, hr]
  · simp only [pour_body, hr]
    split
    · simp
    · split <;> simp

/-- Claim C1: for every request that acquired the lock, whatever the body
outcome (success, missing or zero-volume recipe, or an injected unhandled
exception), the `finally` block leaves `is_pouring` false whenever at least
one of its two release writes persists; it attempts the write exactly once,
retrying exactly once more only on a first-write persistence failure; and
the release step never changes the response: the outcome and status are
those of the body for every persistence-failure oracle. -/
theorem C1_lock_always_released (db : DB) (rid : Nat) (s t bf f1 f2 : Bool)
    (hacq : db.machine.is_pouring = false) :
    (¬(f1 = true ∧ f2 = true) →
      (pour_cocktail db rid s t bf f1 f2).db.machine.is_pouring = false)
    ∧ (pour_cocktail db rid s t bf f1 f2).releaseAttempts = (if f1 then 2 else 1)
    ∧ (pour_cocktail db rid s t bf f1 f2).outcome
        = (pour_cocktail db rid s t bf false false).outcome
    ∧ (pour_cocktail db rid s t bf f1 f2).status
        = (pour_cocktail db rid s t bf false false).status := by
  cases f1 <;> cases f2 <;>
    simp [pour_cocktail, try_acquire, release_lock, hacq]

/-- Claim C2: the lock is acquired by a single compare-and-set that
succeeds and flips `is_pouring` to true exactly when it was false; when it
affects no row the endpoint returns the busy outcome with status 400 and
the whole store unchanged (no task, no history row, no points change), and
when it succeeds the outcome is never busy. -/
theorem C2_atomic_acquire_or_busy (db : DB) (rid : Nat) (s t bf f1 f2 : Bool) :
    ((try_acquire db.machine).1 = !db.machine.is_pouring)
    ∧ ((try_acquire db.machine).2
        = if db.machine.is_pouring then db.machine
          else { db.machine with is_pouring := true })
    ∧ (db.machine.is_pouring = true →
        (pour_cocktail db rid s t bf f1 f2)
          = { outcome := PourOutcome.busy, status := 400, db := db, tasks := []
              releaseAttempts := 0 })
    ∧ (db.machine.is_pouring = false →
        (pour_cocktail db rid s t bf f1 f2).outcome ≠ PourOutcome.busy) := by
  refine ⟨?_, ?_, ?_, ?_⟩
  · cases h : db.machine.is_pouring <;> simp [try_acquire, h]
  · cases h : db.machine.is_pouring <;> simp [try_acquire, h]
  · intro h; simp [pour_cocktail, try_acquire, h]
  · intro h
    simp only [pour_cocktail, try_acquire, h]
    simpa using pour_body_outcome_ne_busy
      { db with machine := { db.machine with is_pouring := true } } rid s t bf

/-- Claim C3: with a positive total relative volume, the scaler maps each
entry pointwise to `(orig_ml / total_orig_ml) * target_ml`, and on the
concrete recipe `{1: 2, 2: 4}` with target 90 it yields `{1: 30, 2: 60}`. -/
theorem C3_proportional_scaling (ings : List (Nat × ℚ)) (target : ℚ) (i : Nat)
    (hpos : 0 < original_total ings) :
    (scale_ingredients ings (original_total ings) target).get? i
      = (ings.get? i).map (fun p => (p.1, p.2 / original_total ings * target))
    ∧ scale_ingredients [(1, 2), (2, 4)] (original_total [(1, 2), (2, 4)]) 90
      = [(1, 30), (2, 60)] := by
  constructor
  · simp [scale_ingredients, List.get?_map]
  · simp [scale_ingredients, original_total]
    norm_num

/-- Witness for C3 at the spec's concrete recipe: ratio 1:2 at target 90
gives 30 and 60. -/
theorem C3_proportional_scaling_witness :
    scale_ingredients [(1, 2), (2, 4)] (original_total [(1, 2), (2, 4)]) 90
      = [(1, 30), (2, 60)] :=
  (C3_proportional_scaling [(1, 2), (2, 4)] 90 0 (by norm_num [original_total])).2

/-- The strong-mode rewrite never shrinks a nonnegative entry. -/
theorem strongEntry_snd_le (db : DB) (p : Nat × ℚ) (h : 0 ≤ p.2) :
    p.2 ≤ (strongEntry db p).2 := by
  unfold strongEntry
  split
  · simp only
    linarith
  · exact le_refl _

/-- The strong-mode rewrite keeps the pump id. -/
theorem strongEntry_fst (db : DB) (p : Nat × ℚ) : (strongEntry db p).1 = p.1 := by
  unfold strongEntry
  split <;> rfl

/-- Strong mode does not decrease the total volume of a nonnegative map. -/
theorem strong_total_le (db : DB) (cal : List (Nat × ℚ)) (h : ∀ p ∈ cal, 0 ≤ p.2) :
    original_total cal ≤ original_total (cal.map (strongEntry db)) := by
  induction cal with
  | nil => simp [original_total]
  | cons p l ih =>
    have h1 : 0 ≤ p.2 := h p (List.mem_cons_self p l)
    have h2 : ∀ q ∈ l, 0 ≤ q.2 := fun q hq => h q (List.mem_cons_of_mem p hq)
    have hp := strongEntry_snd_le db p h1
    have hl := ih h2
    simp only [original_total, List.map_cons, List.sum_cons] at *
    linarith

/-- Strong mode strictly increases the total volume of a nonnegative map
holding a positive alcoholic entry. -/
theorem strong_total_lt (db : DB) (cal : List (Nat × ℚ)) (h : ∀ p ∈ cal, 0 ≤ p.2)
    (hx : ∃ p ∈ cal, is_alcohol_pump db p.1 = true ∧ 0 < p.2) :
    original_total cal < original_total (cal.map (strongEntry db)) := by
  induction cal with
  | nil => simp at hx
  | cons p l ih =>
    have h2 : ∀ q ∈ l, 0 ≤ q.2 := fun q hq => h q (List.mem_cons_of_mem p hq)
    rcases hx with ⟨q, hq, hal, hpos⟩
    rcases List.mem_cons.mp hq with rfl | hq'
    · have hp : q.2 < (strongEntry db q).2 := by
        unfold strongEntry
        rw [hal]
        simp only [if_true]
        linarith
      have hl := strong_total_le db l h2
      simp only [original_total, List.map_cons, List.sum_cons] at *
      linarith
    · have h1 : 0 ≤ p.2 := h p (List.mem_cons_self p l)
      have hp := strongEntry_snd_le db p h1
      have hl := ih h2 ⟨q, hq', hal, hpos⟩
      simp only [original_total, List.map_cons, List.sum_cons] at *
      linarith

/-- Claim C4: strong mode rewrites the scaled map pointwise, multiplying by
1.5 exactly the entries whose pump is alcoholic and leaving the others
unchanged; hence on nonnegative maps the total volume never decreases, and
it strictly increases as soon as some alcoholic entry is positive. -/
theorem C4_strong_mode_isolation (db : DB) (cal : List (Nat × ℚ)) (i : Nat)
    (hnn : ∀ p ∈ cal, 0 ≤ p.2) :
    ((apply_strong db true cal).get? i = (cal.get? i).map (strongEntry db)
      ∧ ∀ p, strongEntry db p
          = if is_alcohol_pump db p.1 then (p.1, p.2 * (3 / 2)) else p)
    ∧ original_total cal ≤ original_total (apply_strong db true cal)
    ∧ ((∃ p ∈ cal, is_alcohol_pump db p.1 = true ∧ 0 < p.2) →
        original_total cal < original_total (apply_strong db true cal)) := by
  refine ⟨⟨?_, fun p => rfl⟩, ?_, ?_⟩
  · simp [apply_strong, List.get?_map]
  · simpa [apply_strong] using strong_total_le db cal hnn
  · intro hx
    simpa [apply_strong] using strong_total_lt db cal hnn hx

/-- Concrete alcoholic pump (id 1) used in the examples. -/
def exPumpAlc : Pump :=
  { id := 1, pin_number := some 17, is_active := true, is_alcohol := true
    is_virtual := false, seconds_per_50ml := 3 }

/-- Concrete non-alcoholic mixer pump (id 2) used in the examples. -/
def exPumpMix : Pump :=
  { id := 2, pin_number := some 27, is_active := true, is_alcohol := false
    is_virtual := false, seconds_per_50ml := 3 }

/-- Concrete machine configuration with the lock free. -/
def exMachine : MachineState :=
  { is_pouring := false, classic_target_vol := 100, highball_target_vol := 90
    shot_target_vol := 40, taste_amount_ml := 30 }

/-- Concrete classic recipe: 45 parts alcohol (pump 1), 55 parts mixer
(pump 2). -/
def exRecipe : Recipe :=
  { id := 1, ingredients := [(1, 45), (2, 55)], category := "classic" }

/-- Concrete store: free lock, the two pumps, the one recipe, a user with
10 points, empty history. -/
def exDB : DB :=
  { machine := exMachine, pumps := [exPumpAlc, exPumpMix], recipes := [exRecipe]
    user := { id := 7, points := 10 }, history := [] }

/-- Witness for C4 on the spec's example: `{alcohol: 40, mixer: 60}` under
strong mode becomes `{alcohol: 60, mixer: 60}` (only the alcohol entry is
multiplied by 1.5) and the total strictly increases. -/
theorem C4_strong_mode_isolation_witness :
    (((apply_strong exDB true [(1, 40), (2, 60)]).get? 0
        = ([((1 : Nat), (40 : ℚ)), (2, 60)].get? 0).map (strongEntry exDB)
      ∧ ∀ p, strongEntry exDB p
          = if is_alcohol_pump exDB p.1 then (p.1, p.2 * (3 / 2)) else p)
    ∧ original_total [(1, 40), (2, 60)]
        ≤ original_total (apply_strong exDB true [(1, 40), (2, 60)])
    ∧ ((∃ p ∈ [((1 : Nat), (40 : ℚ)), (2, 60)], is_alcohol_pump exDB p.1 = true ∧ 0 < p.2) →
        original_total [(1, 40), (2, 60)]
          < original_total (apply_strong exDB true [(1, 40), (2, 60)])))
    ∧ apply_strong exDB true
        (scale_ingredients [(1, 40), (2, 60)] (original_total [(1, 40), (2, 60)]) 100)
      = [(1, 60), (2, 60)] := by
  refine ⟨C4_strong_mode_isolation exDB [(1, 40), (2, 60)] 0 ?_, ?_⟩
  · intro p hp
    rcases List.mem_cons.mp hp with rfl | hp'
    · norm_num
    · rcases List.mem_cons.mp hp' with rfl | h
      · norm_num
      · simp at h
  · simp [apply_strong, strongEntry, scale_ingredients, original_total, is_alcohol_pump,
      findPump, exDB, exPumpAlc, exPumpMix, List.find?]
    norm_num

/-- Claim C5: every pour that acquires the lock, finds the recipe, passes
the zero-volume check and raises no exception succeeds with
`points_added = round(total alcoholic ml of the scaled-and-strengthened
map)`; the user's points grow by exactly that amount and the single
appended `PourHistory` row records it in `points_awarded`. -/
theorem C5_points_equal_alcohol_ml (db : DB) (rid : Nat) (r : Recipe) (s t f1 f2 : Bool)
    (hacq : db.machine.is_pouring = false)
    (hrec : findRecipe db rid = some r)
    (htot : original_total r.ingredients ≠ 0) :
    (pour_cocktail db rid s t false f1 f2).outcome
      = PourOutcome.success
          (pyRound (total_alcohol_ml db (calc_ingredients db r s t)))
          (db.user.points + pyRound (total_alcohol_ml db (calc_ingredients db r s t)))
          (max_duration
            ((dispense_tasks db (calc_ingredients db r s t)).map DispenseTask.duration))
          ((r.category == "highball") && !t)
    ∧ (pour_cocktail db rid s t false f1 f2).db.user.points
        = db.user.points + pyRound (total_alcohol_ml db (calc_ingredients db r s t))
    ∧ (pour_cocktail db rid s t false f1 f2).db.history
        = db.history ++
            [{ user_id := db.user.id, recipe_id := r.id, is_strong := s
               points_awarded :=
                 pyRound (total_alcohol_ml db (calc_ingredients db r s t)) }] := by
  simp [pour_cocktail, try_acquire, hacq, pour_body, hrec, htot, release_lock]

/-- Witness for C5 on the spec's example: scaling `{1: 45, 2: 55}` to the
classic target of 100 ml dispenses 45 ml of alcohol and awards exactly 45
points, raising the user's points from 10 to 55 and recording 45 in the
history row. -/
theorem C5_points_equal_alcohol_ml_witness :
    ((pour_cocktail exDB 1 false false false false false).outcome
      = PourOutcome.success
          (pyRound (total_alcohol_ml exDB (calc_ingredients exDB exRecipe false false)))
          (exDB.user.points
            + pyRound (total_alcohol_ml exDB (calc_ingredients exDB exRecipe false false)))
          (max_duration
            ((dispense_tasks exDB (calc_ingredients exDB exRecipe false false)).map
              DispenseTask.duration))
          ((exRecipe.category == "highball") && !false)
    ∧ (pour_cocktail exDB 1 false false false false false).db.user.points
        = exDB.user.points
            + pyRound (total_alcohol_ml exDB (calc_ingredients exDB exRecipe false false))
    ∧ (pour_cocktail exDB 1 false false false false false).db.history
        = exDB.history ++
            [{ user_id := exDB.user.id, recipe_id := exRecipe.id, is_strong := false
               points_awarded :=
                 pyRound (total_alcohol_ml exDB
                   (calc_ingredients exDB exRecipe false false)) }])
    ∧ pyRound (total_alcohol_ml exDB (calc_ingredients exDB exRecipe false false)) = 45
    ∧ exDB.user.points
        + pyRound (total_alcohol_ml exDB (calc_ingredients exDB exRecipe false false)) = 55 := by
  refine ⟨C5_points_equal_alcohol_ml exDB 1 exRecipe false false false false rfl rfl ?_, ?_, ?_⟩
  · norm_num [original_total, exRecipe]
  · simp [pyRound, total_alcohol_ml, calc_ingredients, apply_strong, scale_ingredients,
      original_total, select_target_volume, is_alcohol_pump, findPump, exDB, exMachine,
      exRecipe, exPumpAlc, exPumpMix, List.find?, List.filter]
    norm_num
  · simp [pyRound, total_alcohol_ml, calc_ingredients, apply_strong, scale_ingredients,
      original_total, select_target_volume, is_alcohol_pump, findPump, exDB, exMachine,
      exRecipe, exPumpAlc, exPumpMix, List.find?, List.filter]
    norm_num

/-- Concrete zero-volume recipe: both relative volumes are 0. -/
def zeroRecipe : Recipe :=
  { id := 1, ingredients := [(1, 0), (2, 0)], category := "classic" }

/-- Concrete store whose only recipe has zero total volume. -/
def zeroDB : DB :=
  { machine := exMachine, pumps := [exPumpAlc, exPumpMix], recipes := [zeroRecipe]
    user := { id := 7, points := 10 }, history := [] }

/-- Counterexample to C6: requesting the missing recipe id 5 with the lock
free does NOT answer HTTP 400 with an invalid-recipe error; the
`NotFound` raised by `get_or_404` is swallowed by the broad
`except Exception` handler, which answers HTTP 500. -/
theorem C6_counterexample :
    (pour_cocktail exDB 5 false false false false false).status = 500
    ∧ (pour_cocktail exDB 5 false false false false false).outcome
        = PourOutcome.notFoundCaught
    ∧ (pour_cocktail exDB 5 false false false false false).outcome
        ≠ PourOutcome.invalidRecipe := by
  simp [pour_cocktail, pour_body, try_acquire, release_lock, findRecipe, httpStatus,
    exDB, exMachine, exRecipe, List.find?]

/-- Claim C6 as amended: with the lock acquired, a zero-volume recipe
answers HTTP 400 with the invalid-recipe error, while a missing recipe is
converted by the generic exception handler into an HTTP 500 response; in
both cases no dispense task runs, no history row is written and the user's
points are unchanged. -/
theorem C6_invalid_recipe_amended (db : DB) (rid : Nat) (s t bf f1 f2 : Bool)
    (hacq : db.machine.is_pouring = false) :
    (findRecipe db rid = none →
      (pour_cocktail db rid s t bf f1 f2).outcome = PourOutcome.notFoundCaught
      ∧ (pour_cocktail db rid s t bf f1 f2).status = 500
      ∧ (pour_cocktail db rid s t bf f1 f2).tasks = []
      ∧ (pour_cocktail db rid s t bf f1 f2).db.history = db.history
      ∧ (pour_cocktail db rid s t bf f1 f2).db.user = db.user)
    ∧ (∀ r, findRecipe db rid = some r → original_total r.ingredients = 0 →
      (pour_cocktail db rid s t bf f1 f2).outcome = PourOutcome.invalidRecipe
      ∧ (pour_cocktail db rid s t bf f1 f2).status = 400
      ∧ (pour_cocktail db rid s t bf f1 f2).tasks = []
      ∧ (pour_cocktail db rid s t bf f1 f2).db.history = db.history
      ∧ (pour_cocktail db rid s t bf f1 f2).db.user = db.user) := by
  constructor
  · intro hnone
    simp [pour_cocktail, try_acquire, hacq, pour_body, hnone, release_lock, httpStatus]
  · intro r hrec h0
    simp [pour_cocktail, try_acquire, hacq, pour_body, hrec, h0, release_lock, httpStatus]

/-- Witness for the amended C6 at concrete stores: the missing recipe id 5
yields the 500 outcome and the zero-volume recipe yields the 400
invalid-recipe outcome, both with no tasks and no history. -/
theorem C6_invalid_recipe_amended_witness :
    ((pour_cocktail exDB 5 false false false false false).outcome
        = PourOutcome.notFoundCaught
      ∧ (pour_cocktail exDB 5 false false false false false).status = 500
      ∧ (pour_cocktail exDB 5 false false false false false).tasks = []
      ∧ (pour_cocktail exDB 5 false false false false false).db.history = exDB.history
      ∧ (pour_cocktail exDB 5 false false false false false).db.user = exDB.user)
    ∧ ((pour_cocktail zeroDB 1 false false false false false).outcome
        = PourOutcome.invalidRecipe
      ∧ (pour_cocktail zeroDB 1 false false false false false).status = 400
      ∧ (pour_cocktail zeroDB 1 false false false false false).tasks = []
      ∧ (pour_cocktail zeroDB 1 false false false false false).db.history = zeroDB.history
      ∧ (pour_cocktail zeroDB 1 false false false false false).db.user = zeroDB.user) := by
  constructor
  · exact (C6_invalid_recipe_amended exDB 5 false false false false false rfl).1 rfl
  · exact (C6_invalid_recipe_amended zeroDB 1 false false false false false rfl).2
      zeroRecipe rfl (by norm_num [original_total, zeroRecipe])

/-- Concrete store like `exDB` but with the taste target volume configured
to 0 ml. -/
def tasteZeroDB : DB :=
  { machine := { exMachine with taste_amount_ml := 0 }
    pumps := [exPumpAlc, exPumpMix], recipes := [exRecipe]
    user := { id := 7, points := 10 }, history := [] }

/-- Counterexample to C7: a pour with target volume 0 (taste mode with
`taste_amount_ml = 0`) does NOT fail with the invalid-recipe error: the
code never checks the target volume, so the request succeeds with HTTP
200, scaling every ingredient to 0 ml and awarding 0 points. -/
theorem C7_counterexample :
    (pour_cocktail tasteZeroDB 1 false true false false false).status = 200
    ∧ (pour_cocktail tasteZeroDB 1 false true false false false).outcome
        = PourOutcome.success 0 10 0 false
    ∧ (pour_cocktail tasteZeroDB 1 false true false false false).outcome
        ≠ PourOutcome.invalidRecipe := by
  simp [pour_cocktail, pour_body, try_acquire, release_lock, findRecipe, findPump,
    httpStatus, tasteZeroDB, exMachine, exRecipe, exPumpAlc, exPumpMix,
    calc_ingredients, apply_strong, strongEntry, scale_ingredients, original_total,
    select_target_volume, dispense_tasks, task_for, total_alcohol_ml, is_alcohol_pump,
    max_duration, pyRound, List.find?, List.filter, List.filterMap]
  norm_num
  decide

/-- Claim C7 as amended: the scaling step rejects a recipe before any
dispense task exactly when the sum of its relative volumes equals zero;
the target volume is never checked (a target of 0 passes and pours zero
volumes), and a recipe whose total is nonzero — even negative — is never
rejected as invalid. -/
theorem C7_zero_total_only_amended (db : DB) (rid : Nat) (r : Recipe) (s t bf f1 f2 : Bool)
    (hacq : db.machine.is_pouring = false)
    (hrec : findRecipe db rid = some r) :
    (original_total r.ingredients = 0 →
      (pour_cocktail db rid s t bf f1 f2).outcome = PourOutcome.invalidRecipe
      ∧ (pour_cocktail db rid s t bf f1 f2).status = 400
      ∧ (pour_cocktail db rid s t bf f1 f2).tasks = [])
    ∧ (original_total r.ingredients ≠ 0 →
      (pour_cocktail db rid s t bf f1 f2).outcome ≠ PourOutcome.invalidRecipe) := by
  constructor
  · intro h0
    simp [pour_cocktail, try_acquire, hacq, pour_body, hrec, h0, release_lock, httpStatus]
  · intro hne
    cases bf <;>
      simp [pour_cocktail, try_acquire, hacq, pour_body, hrec, hne, release_lock, httpStatus]

/-- Witness for the amended C7: the zero-total recipe is rejected with no
tasks, and the nonzero recipe of `exDB` is not rejected as invalid. -/
theorem C7_zero_total_only_amended_witness :
    ((pour_cocktail zeroDB 1 false false false false false).outcome
        = PourOutcome.invalidRecipe
      ∧ (pour_cocktail zeroDB 1 false false false false false).status = 400
      ∧ (pour_cocktail zeroDB 1 false false false false false).tasks = [])
    ∧ (pour_cocktail exDB 1 false false false false false).outcome
        ≠ PourOutcome.invalidRecipe := by
  constructor
  · exact (C7_zero_total_only_amended zeroDB 1 zeroRecipe false false false false false
      rfl rfl).1 (by norm_num [original_total, zeroRecipe])
  · exact (C7_zero_total_only_amended exDB 1 exRecipe false false false false false
      rfl rfl).2 (by norm_num [original_total, exRecipe])

/-- Concrete inactive pump (id 1), not alcoholic, calibration 3 s / 50 ml. -/
def inactivePump : Pump :=
  { id := 1, pin_number := some 17, is_active := false, is_alcohol := false
    is_virtual := false, seconds_per_50ml := 3 }

/-- Concrete recipe whose pump-1 entry has relative volume 0. -/
def zeroEntryRecipe : Recipe :=
  { id := 1, ingredients := [(1, 0), (2, 50)], category := "classic" }

/-- Concrete store with an inactive pump 1 and a recipe whose pump-1 entry
scales to 0 ml. -/
def inactiveDB : DB :=
  { machine := exMachine, pumps := [inactivePump, exPumpMix]
    recipes := [zeroEntryRecipe], user := { id := 7, points := 0 }, history := [] }

/-- Counterexample to C9: the dispense loop launches a task even for the
pump-1 entry although that pump is inactive and its scaled volume is 0 —
two tasks are started, one of them with duration 0 for the inactive pump. -/
theorem C9_counterexample :
    (pour_cocktail inactiveDB 1 false false false false false).tasks
      = [{ pump_id := 1, pin_number := some 17, duration := 0 },
         { pump_id := 2, pin_number := some 27, duration := 6 }]
    ∧ inactivePump.is_active = false
    ∧ (calc_ingredients inactiveDB zeroEntryRecipe false false).get? 0 = some (1, 0) := by
  refine ⟨?_, rfl, ?_⟩
  · simp [pour_cocktail, pour_body, try_acquire, release_lock, findRecipe, findPump,
      inactiveDB, exMachine, zeroEntryRecipe, inactivePump, exPumpMix,
      calc_ingredients, apply_strong, strongEntry, scale_ingredients, original_total,
      select_target_volume, dispense_tasks, task_for, is_alcohol_pump,
      List.find?, List.filterMap]
    norm_num
  · simp [calc_ingredients, apply_strong, strongEntry, scale_ingredients, original_total,
      select_target_volume, is_alcohol_pump, findPump, inactiveDB, exMachine,
      zeroEntryRecipe, inactivePump, exPumpMix, List.find?]

/-- Claim C9 as amended: with the lock acquired, a found recipe, a nonzero
total and no injected fault, the tasks started are exactly one per entry of
the scaled map whose pump id exists in the pump table — zero-volume entries
and inactive pumps included, entries with a missing pump row excluded —
each with duration `(scaled_ml / 50) * seconds_per_50ml`; and the response
is computed only after all launched tasks are known: its total duration is
the maximum over exactly those tasks. -/
theorem C9_task_fanout_amended (db : DB) (rid : Nat) (r : Recipe) (s t f1 f2 : Bool)
    (hacq : db.machine.is_pouring = false)
    (hrec : findRecipe db rid = some r)
    (htot : original_total r.ingredients ≠ 0) :
    (pour_cocktail db rid s t false f1 f2).tasks
      = (calc_ingredients db r s t).filterMap (task_for db)
    ∧ (∀ p ∈ calc_ingredients db r s t, ∀ pu, findPump db p.1 = some pu →
        ({ pump_id := p.1, pin_number := pu.pin_number
           duration := p.2 / 50 * pu.seconds_per_50ml } : DispenseTask)
          ∈ (pour_cocktail db rid s t false f1 f2).tasks)
    ∧ (∀ task ∈ (pour_cocktail db rid s t false f1 f2).tasks,
        ∃ p ∈ calc_ingredients db r s t, task_for db p = some task)
    ∧ (∀ p ∈ calc_ingredients db r s t, findPump db p.1 = none → task_for db p = none)
    ∧ (pour_cocktail db rid s t false f1 f2).outcome
        = PourOutcome.success
            (pyRound (total_alcohol_ml db (calc_ingredients db r s t)))
            (db.user.points + pyRound (total_alcohol_ml db (calc_ingredients db r s t)))
            (max_duration
              (((pour_cocktail db rid s t false f1 f2).tasks).map DispenseTask.duration))
            ((r.category == "highball") && !t) := by
  have htasks : (pour_cocktail db rid s t false f1 f2).tasks
      = dispense_tasks db (calc_ingredients db r s t) := by
    simp [pour_cocktail, try_acquire, hacq, pour_body, hrec, htot, release_lock]
  refine ⟨by simpa [dispense_tasks] using htasks, ?_, ?_, ?_, ?_⟩
  · intro p hp pu hpu
    rw [htasks]
    exact List.mem_filterMap.mpr ⟨p, hp, by simp [task_for, hpu]⟩
  · intro task htask
    rw [htasks] at htask
    exact List.mem_filterMap.mp htask
  · intro p _ hnone
    simp [task_for, hnone]
  · rw [htasks]
    simp [pour_cocktail, try_acquire, hacq, pour_body, hrec, htot, release_lock]

/-- Witness for the amended C9 at the concrete store: both entries of the
recipe get a task (the inactive zero-volume pump included) and the success
response's duration is the maximum (6 s) over the launched tasks. -/
theorem C9_task_fanout_amended_witness :
    (pour_cocktail inactiveDB 1 false false false false false).tasks
      = (calc_ingredients inactiveDB zeroEntryRecipe false false).filterMap
          (task_for inactiveDB)
    ∧ (pour_cocktail inactiveDB 1 false false false false false).outcome
        = PourOutcome.success
            (pyRound (total_alcohol_ml inactiveDB
              (calc_ingredients inactiveDB zeroEntryRecipe false false)))
            (inactiveDB.user.points + pyRound (total_alcohol_ml inactiveDB
              (calc_ingredients inactiveDB zeroEntryRecipe false false)))
            (max_duration
              (((pour_cocktail inactiveDB 1 false false false false false).tasks).map
                DispenseTask.duration))
            ((zeroEntryRecipe.category == "highball") && !false)
    ∧ max_duration
        (((pour_cocktail inactiveDB 1 false false false false false).tasks).map
          DispenseTask.duration) = 6 := by
  have h := C9_task_fanout_amended inactiveDB 1 zeroEntryRecipe false false false false
    rfl rfl (by norm_num [original_total, zeroEntryRecipe])
  refine ⟨h.1, h.2.2.2.2, ?_⟩
  rw [h.1]
  simp [calc_ingredients, apply_strong, strongEntry, scale_ingredients, original_total,
    select_target_volume, is_alcohol_pump, findPump, task_for, inactiveDB, exMachine,
    zeroEntryRecipe, inactivePump, exPumpMix, List.find?, List.filterMap, max_duration]
  norm_num

/-- Claim C10: a taste-mode pour is a fully scored pour: the target volume
is always `taste_amount_ml` whatever the category, and the request still
succeeds with `round(scaled alcoholic ml)` points added, the user's points
incremented by exactly that amount, and one history row recording it; its
highball flag is always false. -/
theorem C10_taste_mode_scored (db : DB) (rid : Nat) (r : Recipe) (s f1 f2 : Bool)
    (hacq : db.machine.is_pouring = false)
    (hrec : findRecipe db rid = some r)
    (htot : original_total r.ingredients ≠ 0) :
    select_target_volume db.machine true r.category = db.machine.taste_amount_ml
    ∧ (pour_cocktail db rid s true false f1 f2).outcome
        = PourOutcome.success
            (pyRound (total_alcohol_ml db (calc_ingredients db r s true)))
            (db.user.points + pyRound (total_alcohol_ml db (calc_ingredients db r s true)))
            (max_duration
              ((dispense_tasks db (calc_ingredients db r s true)).map DispenseTask.duration))
            false
    ∧ (pour_cocktail db rid s true false f1 f2).db.user.points
        = db.user.points + pyRound (total_alcohol_ml db (calc_ingredients db r s true))
    ∧ (pour_cocktail db rid s true false f1 f2).db.history
        = db.history ++
            [{ user_id := db.user.id, recipe_id := r.id, is_strong := s
               points_awarded :=
                 pyRound (total_alcohol_ml db (calc_ingredients db r s true)) }] := by
  refine ⟨rfl, ?_, ?_, ?_⟩ <;>
    simp [pour_cocktail, try_acquire, hacq, pour_body, hrec, htot, release_lock]

/-- Witness for C10 at the concrete store: tasting the 45:55 recipe at the
30 ml taste volume dispenses 13.5 ml of alcohol and awards
round(13.5) = 14 points (round half to even), raising the user from 10 to
24 points. -/
theorem C10_taste_mode_scored_witness :
    (select_target_volume exDB.machine true exRecipe.category
        = exDB.machine.taste_amount_ml
    ∧ (pour_cocktail exDB 1 false true false false false).outcome
        = PourOutcome.success
            (pyRound (total_alcohol_ml exDB (calc_ingredients exDB exRecipe false true)))
            (exDB.user.points
              + pyRound (total_alcohol_ml exDB (calc_ingredients exDB exRecipe false true)))
            (max_duration
              ((dispense_tasks exDB (calc_ingredients exDB exRecipe false true)).map
                DispenseTask.duration))
            false
    ∧ (pour_cocktail exDB 1 false true false false false).db.user.points
        = exDB.user.points
            + pyRound (total_alcohol_ml exDB (calc_ingredients exDB exRecipe false true))
    ∧ (pour_cocktail exDB 1 false true false false false).db.history
        = exDB.history ++
            [{ user_id := exDB.user.id, recipe_id := exRecipe.id, is_strong := false
               points_awarded :=
                 pyRound (total_alcohol_ml exDB
                   (calc_ingredients exDB exRecipe false true)) }])
    ∧ pyRound (total_alcohol_ml exDB (calc_ingredients exDB exRecipe false true)) = 14 := by
  refine ⟨C10_taste_mode_scored exDB 1 exRecipe false false false rfl rfl ?_, ?_⟩
  · norm_num [original_total, exRecipe]
  · simp [pyRound, total_alcohol_ml, calc_ingredients, apply_strong, strongEntry,
      scale_ingredients, original_total, select_target_volume, is_alcohol_pump,
      findPump, exDB, exMachine, exRecipe, exPumpAlc, exPumpMix, List.find?, List.filter]
    norm_num [Int.fract]

/-- Concrete store identical to `exDB` but with the lock already held. -/
def busyDB : DB :=
  { machine := { exMachine with is_pouring := true }
    pumps := [exPumpAlc, exPumpMix], recipes := [exRecipe]
    user := { id := 7, points := 10 }, history := [] }

/-- Witness for C1 at the concrete store with a failing first release
write: the retry releases the lock (two attempts) and the response is the
one the body produced. -/
theorem C1_lock_always_released_witness :
    (pour_cocktail exDB 1 false false true true false).db.machine.is_pouring = false
    ∧ (pour_cocktail exDB 1 false false true true false).releaseAttempts = 2
    ∧ (pour_cocktail exDB 1 false false true true false).outcome
        = (pour_cocktail exDB 1 false false true false false).outcome := by
  have h := C1_lock_always_released exDB 1 false false true true false rfl
  exact ⟨h.1 (by simp), by simpa using h.2.1, h.2.2.1⟩

/-- Witness for C2 at concrete stores: with the lock already held the
request is rejected as busy with the store untouched, and with the lock
free the outcome is not busy. -/
theorem C2_atomic_acquire_or_busy_witness :
    (pour_cocktail busyDB 1 false false false false false)
      = { outcome := PourOutcome.busy, status := 400, db := busyDB, tasks := []
          releaseAttempts := 0 }
    ∧ (pour_cocktail exDB 1 false false false false false).outcome
        ≠ PourOutcome.busy := by
  have h1 := C2_atomic_acquire_or_busy busyDB 1 false false false false false
  have h2 := C2_atomic_acquire_or_busy exDB 1 false false false false false
  exact ⟨h1.2.2.1 rfl, h2.2.2.2 rfl⟩
